import Mathlib

/-!
Verification of the CV8 bridge (Sources/CV8/wrappers.cpp): a shallow
embedding of the handle/scope discipline, the evaluate/getProperty
exception protocol, the UTF-8 length/copy pair, the array-buffer
allocator, and the function-registration / callback-marshalling layer.
-/

namespace CV8

/-! ## Guard events and per-operation traces

Each exported operation is modelled by the sequence of lock/scope
acquisitions, engine-native calls, and releases its body performs, read
off the RAII structure of the C++ source (constructors run in
declaration order, destructors in reverse order on every exit path). -/

inductive Event where
  | lock
  | unlock
  | enterIso
  | exitIso
  | openHS
  | closeHS
  | call (name : String)
  deriving DecidableEq

def isGuardEvent : Event → Bool
  | .lock => true
  | .unlock => true
  | .enterIso => true
  | .exitIso => true
  | .openHS => true
  | .closeHS => true
  | .call _ => false

/-- The Locker / Isolate::Scope / HandleScope stanza shared by every
guarded function of the source (and by the GlobalValue helper class):
the three guards are constructed in this order before the body and
destructed in reverse order after it. -/
def guardWrap (inner : List Event) : List Event :=
  [Event.lock, Event.enterIso, Event.openHS] ++ inner ++
    [Event.closeHS, Event.exitIso, Event.unlock]

/-- The RAII stanza of evaluate and getProperty: those two functions
declare a TryCatch between the Locker and the Isolate::Scope, so its
engine-native construction runs after the lock is taken but before
either scope is entered, and its destruction runs after both scopes are
exited but before the lock is released. -/
def guardWrapTryCatch (inner : List Event) : List Event :=
  [Event.lock, Event.call "TryCatch::TryCatch", Event.enterIso,
    Event.openHS] ++ inner ++
    [Event.closeHS, Event.exitIso, Event.call "TryCatch::~TryCatch",
      Event.unlock]

/-- A trace is well guarded when it acquires the lock, then the isolate
scope, then the handle scope, performs only non-guard events in between,
and releases the three in strict reverse order at the end. -/
def wellGuarded (tr : List Event) : Prop :=
  ∃ inner, tr = Event.lock :: Event.enterIso :: Event.openHS ::
      (inner ++ [Event.closeHS, Event.exitIso, Event.unlock]) ∧
    inner.all (fun e => !isGuardEvent e) = true

/-- The weaker discipline evaluate and getProperty actually follow: the
lock is still acquired first and released last, the isolate scope and
handle scope are still entered in order and exited in strict reverse
order on every exit path, and every engine-native call other than the
TryCatch construction and destruction happens inside all three; but the
TryCatch construction sits between the lock and the isolate scope, and
its destruction between the isolate-scope exit and the unlock — under
the lock, outside both scopes. -/
def wellGuardedExceptTryCatch (tr : List Event) : Prop :=
  ∃ inner, tr = Event.lock :: Event.call "TryCatch::TryCatch" ::
      Event.enterIso :: Event.openHS ::
      (inner ++ [Event.closeHS, Event.exitIso,
        Event.call "TryCatch::~TryCatch", Event.unlock]) ∧
    inner.all (fun e => !isGuardEvent e) = true

def createTemplateTrace : List Event :=
  guardWrap [Event.call "ObjectTemplate::New", Event.call "Global::New"]

def createContextTrace : List Event :=
  guardWrap [Event.call "Global::Get", Event.call "Context::New",
    Event.call "Global::New"]

/-- Trace of evaluate, by exit path: the failed flag records whether
Script::Run produced an empty result, ptrNull whether the caller passed
a null exception out-pointer (in which case neither TryCatch::Exception
nor the promotion to a Global happens). The TryCatch is declared
between the Locker and the Isolate::Scope, so its construction and
destruction flank the scope pair from inside the locked region. -/
def evaluateTrace (failed ptrNull : Bool) : List Event :=
  guardWrapTryCatch
    ([Event.call "Global::Get", Event.call "Context::Scope enter",
      Event.call "String::NewFromUtf8", Event.call "Script::Compile",
      Event.call "Script::Run"] ++
     (if failed then
        (if ptrNull then []
         else [Event.call "TryCatch::Exception", Event.call "Global::New"])
      else [Event.call "ToLocalChecked", Event.call "Global::New"]) ++
     [Event.call "Context::Scope exit"])

def valueToIntTrace : List Event :=
  guardWrap [Event.call "Global::Get", Event.call "Value::ToInteger",
    Event.call "Value::IntegerValue"]

def getUtf8StringLengthTrace : List Event :=
  guardWrap [Event.call "Global::Get", Event.call "String::Utf8Value",
    Event.call "Utf8Value::length"]

def copyUtf8StringTrace : List Event :=
  guardWrap [Event.call "Global::Get", Event.call "String::Utf8Value",
    Event.call "memcpy"]

def isNullTrace : List Event :=
  guardWrap [Event.call "Global::Get", Event.call "Value::IsNull"]

def isUndefinedTrace : List Event :=
  guardWrap [Event.call "Global::Get", Event.call "Value::IsUndefined"]

def isBooleanTrace : List Event :=
  guardWrap [Event.call "Global::Get", Event.call "Value::IsBoolean"]

def isNumberTrace : List Event :=
  guardWrap [Event.call "Global::Get", Event.call "Value::IsNumber"]

def isStringTrace : List Event :=
  guardWrap [Event.call "Global::Get", Event.call "Value::IsString"]

def isObjectTrace : List Event :=
  guardWrap [Event.call "Global::Get", Event.call "Value::IsObject"]

def createFunctionTrace : List Event :=
  guardWrap [Event.call "Integer::New", Event.call "Global::Get",
    Event.call "String::NewFromUtf8", Event.call "FunctionTemplate::New",
    Event.call "ObjectTemplate::Set", Event.call "Global::Get",
    Event.call "Context::Global", Event.call "Context::DetachGlobal",
    Event.call "Context::New", Event.call "Global::Reset"]

/-- Trace of getProperty, by exit path: found records whether
GetRealNamedProperty returned a non-empty local, ptrNull whether the
exception out-pointer was null. Like evaluate, getProperty declares its
TryCatch between the Locker and the Isolate::Scope. -/
def getPropertyTrace (found ptrNull : Bool) : List Event :=
  guardWrapTryCatch
    ([Event.call "Global::Get", Event.call "Value::ToObject",
      Event.call "String::NewFromUtf8",
      Event.call "Object::GetRealNamedProperty"] ++
     (if found then [Event.call "Global::New"]
      else if ptrNull then []
      else [Event.call "TryCatch::Exception", Event.call "Global::New"]))

/-- Trace of disposeValue: the body is a bare delete of the Global,
whose destructor resets the persistent handle inside the isolate; no
Locker, Isolate::Scope or HandleScope is taken. -/
def disposeValueTrace : List Event :=
  [Event.call "Global::Reset"]

def disposeTemplateTrace : List Event :=
  [Event.call "Global::Reset"]

def disposeContextTrace : List Event :=
  [Event.call "Global::Reset"]

theorem wellGuarded_guardWrap (inner : List Event)
    (h : inner.all (fun e => !isGuardEvent e) = true) :
    wellGuarded (guardWrap inner) :=
  ⟨inner, rfl, h⟩

theorem wellGuardedExceptTryCatch_guardWrapTryCatch (inner : List Event)
    (h : inner.all (fun e => !isGuardEvent e) = true) :
    wellGuardedExceptTryCatch (guardWrapTryCatch inner) :=
  ⟨inner, rfl, h⟩

/-! ## Engine values and persistent handles -/

/-- An engine-native value, as far as the bridge observes it. -/
inductive V8Value where
  | nullValue
  | undefinedValue
  | booleanValue (b : Bool)
  | numberValue (n : Int)
  | stringValue (bytes : List Nat)
  | objectValue (id : Nat)
  deriving DecidableEq

/-- A persistent (Global) value handle; referent none models a Global
constructed from an empty engine local reference. -/
structure ValueHandle where
  referent : Option V8Value
  deriving DecidableEq

/-- Joint outcome of evaluate/getProperty: the returned handle (none for
the C NULL return) and what, if anything, was written through the
exception out-pointer (none when nothing was written). -/
structure CallResult where
  result : Option ValueHandle
  excWrite : Option ValueHandle
  deriving DecidableEq

/-- Contents of the caller's exception slot after a call, given its
prior contents: unchanged when the call wrote nothing. -/
def slotAfter (c : CallResult) (prior : Option ValueHandle) :
    Option ValueHandle :=
  match c.excWrite with
  | none => prior
  | some h => some h

/-- Outcome of the engine's compile-and-run of a source text (the
engine collaborator's capability; on failure the TryCatch holds the
thrown exception). -/
inductive RunOutcome where
  | success (v : V8Value)
  | failure (exc : V8Value)
  deriving DecidableEq

/-- Body of evaluate after Script::Run: on a non-empty result the local
is promoted to a new Global and returned with nothing written to the
exception slot; on an empty result NULL is returned, and the TryCatch
exception is promoted and written only when the out-pointer is
non-null. -/
def evaluate (outcome : RunOutcome) (excPtrNull : Bool) : CallResult :=
  match outcome with
  | .success v => { result := some ⟨some v⟩, excWrite := none }
  | .failure exc =>
      if excPtrNull then { result := none, excWrite := none }
      else { result := none, excWrite := some ⟨some exc⟩ }

/-- The exported evaluate entry point: compile-and-run the source text
through the engine, then dispatch on the outcome as the source does. -/
def evaluateScript (engine : String → RunOutcome) (source : String)
    (excPtrNull : Bool) : CallResult :=
  evaluate (engine source) excPtrNull

/-- Body of getProperty after GetRealNamedProperty: lookupResult is the
(possibly empty) local the engine returned, caught what the TryCatch
holds. On an empty lookup the TryCatch contents are promoted to a
Global and written only when the out-pointer is non-null. -/
def getProperty (lookupResult : Option V8Value) (caught : Option V8Value)
    (excPtrNull : Bool) : CallResult :=
  match lookupResult with
  | some v => { result := some ⟨some v⟩, excWrite := none }
  | none =>
      if excPtrNull then { result := none, excWrite := none }
      else { result := none, excWrite := some ⟨caught⟩ }

/-! ## Value introspection -/

def isNull (h : ValueHandle) : Bool :=
  match h.referent with
  | some V8Value.nullValue => true
  | _ => false

def isUndefined (h : ValueHandle) : Bool :=
  match h.referent with
  | some V8Value.undefinedValue => true
  | _ => false

def isBoolean (h : ValueHandle) : Bool :=
  match h.referent with
  | some (V8Value.booleanValue _) => true
  | _ => false

def isNumber (h : ValueHandle) : Bool :=
  match h.referent with
  | some (V8Value.numberValue _) => true
  | _ => false

def isString (h : ValueHandle) : Bool :=
  match h.referent with
  | some (V8Value.stringValue _) => true
  | _ => false

def isObject (h : ValueHandle) : Bool :=
  match h.referent with
  | some (V8Value.objectValue _) => true
  | _ => false

/-! ## UTF-8 length and copy -/

def natToDecimalBytes (n : Nat) : List Nat :=
  (Nat.toDigits 10 n).map Char.toNat

/-- Modelled from the spec: the engine's string conversion performed by
String::Utf8Value (the Value Introspector collaborator), absent from
src/; a string converts to its own UTF-8 bytes, the primitives to their
standard script spellings. -/
def utf8Bytes : V8Value → List Nat
  | V8Value.nullValue => [110, 117, 108, 108]
  | V8Value.undefinedValue => [117, 110, 100, 101, 102, 105, 110, 101, 100]
  | V8Value.booleanValue true => [116, 114, 117, 101]
  | V8Value.booleanValue false => [102, 97, 108, 115, 101]
  | V8Value.numberValue n =>
      if n < 0 then 45 :: natToDecimalBytes n.natAbs
      else natToDecimalBytes n.toNat
  | V8Value.stringValue bytes => bytes
  | V8Value.objectValue _ =>
      [91, 111, 98, 106, 101, 99, 116, 32, 79, 98, 106, 101, 99, 116, 93]

/-- The UTF-8 bytes String::Utf8Value yields for a handle; a Global
wrapping an empty reference yields a NULL buffer of length zero. -/
def handleUtf8 (h : ValueHandle) : List Nat :=
  match h.referent with
  | some v => utf8Bytes v
  | none => []

def getUtf8StringLength (h : ValueHandle) : Nat :=
  (handleUtf8 h).length

/-- The C memcpy on byte buffers: the first count bytes of dest are
replaced by the first count bytes of src, the rest of dest is
untouched. -/
def memcpy (dest src : List Nat) (count : Nat) : List Nat :=
  src.take count ++ dest.drop count

def copyUtf8String (h : ValueHandle) (buffer : List Nat) (count : Nat) :
    List Nat :=
  memcpy buffer (handleUtf8 h) count

/-! ## ArrayBufferAllocator -/

/-- The C memset on a byte block: the first length bytes are set to
value, the rest is untouched. -/
def memset (block : List Nat) (value : Nat) (length : Nat) : List Nat :=
  List.replicate length value ++ block.drop length

/-- ArrayBufferAllocator::AllocateUninitialized: a direct delegation to
the system allocator (malloc models it: none is a NULL return). -/
def AllocateUninitialized (malloc : Nat → Option (List Nat))
    (length : Nat) : Option (List Nat) :=
  malloc length

/-- ArrayBufferAllocator::Allocate: allocate uninitialized, pass a NULL
result through, otherwise zero the first length bytes with memset. -/
def Allocate (malloc : Nat → Option (List Nat)) (length : Nat) :
    Option (List Nat) :=
  match AllocateUninitialized malloc length with
  | none => none
  | some data => some (memset data 0 length)

/-! ## Property lookup -/

def lookupKey {α : Type} : List (String × α) → String → Option α
  | [], _ => none
  | (k, v) :: rest, key => if k = key then some v else lookupKey rest key

/-- An engine object as the Property Accessor observes it: its plain
named properties, and the keys whose accessors throw (with the
exception value they throw). -/
structure EngineObject where
  props : List (String × V8Value)
  throwing : List (String × V8Value)

/-- Modelled from the spec: the engine collaborator's real-named-property
lookup (V8's Object::GetRealNamedProperty), absent from src/. A key
whose accessor throws yields an empty local with the exception caught
by the active TryCatch; a plain property yields its value; a key never
set yields the undefined value (the spec's stated assumption for a
missing property) with nothing caught. -/
def getRealNamedProperty (o : EngineObject) (key : String) :
    Option V8Value × Option V8Value :=
  match lookupKey o.throwing key with
  | some exc => (none, some exc)
  | none =>
      match lookupKey o.props key with
      | some v => (some v, none)
      | none => (some V8Value.undefinedValue, none)

/-- The exported getProperty entry point on a concrete engine object:
perform the engine lookup, then dispatch on the (local, caught) pair as
the source does. -/
def getPropertyOn (o : EngineObject) (key : String) (excPtrNull : Bool) :
    CallResult :=
  getProperty (getRealNamedProperty o key).1 (getRealNamedProperty o key).2
    excPtrNull

/-! ## Templates, contexts and the function bridge -/

/-- The function slots of a global ObjectTemplate: name to callId, as
installed by ObjectTemplate::Set with a FunctionTemplate whose data is
the Integer callId. -/
structure TemplateState where
  slots : List (String × Int)
  deriving DecidableEq

/-- ObjectTemplate::Set: install a named slot, overwriting an existing
slot of the same name. -/
def setSlot : List (String × Int) → String → Int → List (String × Int)
  | [], name, id => [(name, id)]
  | (n, i) :: rest, name, id =>
      if n = name then (name, id) :: rest
      else (n, i) :: setSlot rest name id

/-- A context as the bridge observes it: the function slots of the
template it was created against, the identity of its global object, and
the named properties script code has set on that global object. -/
structure ContextState where
  boundSlots : List (String × Int)
  globalId : Nat
  globalProps : List (String × V8Value)
  deriving DecidableEq

/-- createTemplate: ObjectTemplate::New yields an empty template. -/
def createTemplate : TemplateState :=
  { slots := [] }

/-- createContext: Context::New against a template yields a context
bound to the template's slots with a fresh global object holding no
script-set properties yet. -/
def createContext (tmpl : TemplateState) (freshGlobal : Nat) :
    ContextState :=
  { boundSlots := tmpl.slots, globalId := freshGlobal, globalProps := [] }

/-- Modelled from the spec: Context::New with an explicit existing
global object (the detach-then-rebind step of the engine collaborator,
absent from src/) — the new context is bound to the given template's
slots while the global object keeps its identity and every property
already set on it. -/
def contextNewWithGlobal (tmpl : TemplateState) (globalId : Nat)
    (globalProps : List (String × V8Value)) : ContextState :=
  { boundSlots := tmpl.slots, globalId := globalId,
    globalProps := globalProps }

/-- createFunction: install the (name, callId) slot in the template,
detach the context's global object, create a new context against the
updated template reusing that global object, and hand back the pair the
caller's handles are repointed to. -/
def createFunction (tmpl : TemplateState) (ctx : ContextState)
    (name : String) (id : Int) : TemplateState × ContextState :=
  let tmplUpd : TemplateState := { slots := setSlot tmpl.slots name id }
  let newContext := contextNewWithGlobal tmplUpd ctx.globalId ctx.globalProps
  (tmplUpd, newContext)

def storeGet : List ContextState → Nat → Option ContextState
  | [], _ => none
  | c :: _, 0 => some c
  | _ :: rest, n + 1 => storeGet rest n

def storeSet : List ContextState → Nat → ContextState → List ContextState
  | [], _, _ => []
  | _ :: rest, 0, c => c :: rest
  | x :: rest, n + 1, c => x :: storeSet rest n c

/-- createFunction through the caller's context handle: the handle is a
pointer into the store of live contexts, and Global::Reset repoints the
same handle at the new context (in-place mutation, no new handle). -/
def createFunctionAt (tmpl : TemplateState) (store : List ContextState)
    (h : Nat) (name : String) (id : Int) :
    TemplateState × List ContextState :=
  match storeGet store h with
  | none => (tmpl, store)
  | some ctx =>
      let r := createFunction tmpl ctx name id
      (r.1, storeSet store h r.2)

/-! ## Callback marshalling -/

/-- What the engine hands the static callback: the isolate, the data
Integer embedded at registration time (the callId), and the call
arguments as transient local references. -/
structure CallbackInfo where
  isolate : Nat
  data : Int
  args : List V8Value

/-- One invocation of the external dispatch function, field for field:
swiftCallback(isolate, id, values, length, returnValue). -/
structure DispatchRecord where
  isolate : Nat
  callId : Int
  argHandles : List ValueHandle
  argCount : Nat
  deriving DecidableEq

/-- Everything the static callback does: the dispatch invocations it
performs, the handles it disposes, and the state of the return value
sink when it returns (none: never set, so the call result is the
engine's default undefined). -/
structure CallbackEffect where
  dispatches : List DispatchRecord
  disposed : List ValueHandle
  returnValue : Option V8Value

/-- The static callback: read the callId from the data Integer, promote
each argument in order to a new Global, and invoke the external
dispatch function once with the isolate, the callId, the handles, the
argument count and the call's return value sink; nothing is disposed
and the sink ends exactly as the dispatch function left it. -/
def callback (info : CallbackInfo)
    (dispatch : Nat → Int → List ValueHandle → Nat → Option V8Value →
      Option V8Value) : CallbackEffect :=
  let handles := info.args.map (fun a => ValueHandle.mk (some a))
  let record : DispatchRecord :=
    { isolate := info.isolate, callId := info.data,
      argHandles := handles, argCount := info.args.length }
  { dispatches := [record],
    disposed := [],
    returnValue :=
      dispatch info.isolate info.data handles info.args.length none }

/-- A script call of a function by name through a context: the engine
resolves the name against the context's bound slots; when it resolves,
the function's stored callId reaches the static callback as its data. -/
def scriptCall (ctx : ContextState) (isolate : Nat) (name : String)
    (args : List V8Value)
    (dispatch : Nat → Int → List ValueHandle → Nat → Option V8Value →
      Option V8Value) : Option CallbackEffect :=
  match lookupKey ctx.boundSlots name with
  | none => none
  | some id => some (callback ⟨isolate, id, args⟩ dispatch)

/-! ## Helper lemmas -/

theorem lookupKey_setSlot_self (slots : List (String × Int)) (name : String)
    (id : Int) : lookupKey (setSlot slots name id) name = some id := by
  induction slots with
  | nil => simp [setSlot, lookupKey]
  | cons p rest ih =>
      obtain ⟨n, i⟩ := p
      by_cases hn : n = name
      · subst hn
        simp [setSlot, lookupKey]
      · simp [setSlot, hn, lookupKey, ih]

theorem lookupKey_setSlot_other (slots : List (String × Int))
    (name other : String) (id : Int) (hne : other ≠ name) :
    lookupKey (setSlot slots name id) other = lookupKey slots other := by
  have hne2 : name ≠ other := Ne.symm hne
  induction slots with
  | nil => simp [setSlot, lookupKey, hne2]
  | cons p rest ih =>
      obtain ⟨n, i⟩ := p
      by_cases hn : n = name
      · subst hn
        simp [setSlot, lookupKey, hne2]
      · by_cases ho : n = other
        · simp [setSlot, hn, lookupKey, ho, hne]
        · simp [setSlot, hn, lookupKey, ho, ih]

theorem storeGet_storeSet_self (store : List ContextState) :
    ∀ (h : Nat) (c x : ContextState), storeGet store h = some x →
      storeGet (storeSet store h c) h = some c := by
  induction store with
  | nil =>
      intro h c x hx
      simp [storeGet] at hx
  | cons y rest ih =>
      intro h c x hx
      cases h with
      | zero => simp [storeSet, storeGet]
      | succ n =>
          simp only [storeSet, storeGet] at hx ⊢
          exact ih n c x hx

theorem length_storeSet (store : List ContextState) :
    ∀ (h : Nat) (c : ContextState),
      (storeSet store h c).length = store.length := by
  induction store with
  | nil => intro h c; rfl
  | cons y rest ih =>
      intro h c
      cases h with
      | zero => rfl
      | succ n => simp [storeSet, ih]

theorem storeGet_storeSet_ne (store : List ContextState) :
    ∀ (h j : Nat) (c : ContextState), j ≠ h →
      storeGet (storeSet store h c) j = storeGet store j := by
  induction store with
  | nil => intro h j c _; rfl
  | cons y rest ih =>
      intro h j c hne
      cases h with
      | zero =>
          cases j with
          | zero => exact absurd rfl hne
          | succ k => simp [storeSet, storeGet]
      | succ n =>
          cases j with
          | zero => simp [storeSet, storeGet]
          | succ k =>
              simp only [storeSet, storeGet]
              exact ih n k c (fun hk => hne (congrArg Nat.succ hk))

/-! ## Claim theorems -/

/-- Claim C1, counterexample: disposeValue performs its engine-native
release of the persistent handle without acquiring the isolate lock or
entering any scope, and evaluate and getProperty construct and destroy
their TryCatch — an engine-native call — after taking the lock but
outside both scopes; so none of these traces is well guarded, refuting
the claim that every listed operation holds the lock and both scopes
for the duration of all its engine-native calls in the stated
acquisition and release order. -/
theorem c1_counterexample :
    ¬ wellGuarded disposeValueTrace ∧
    ¬ wellGuarded (evaluateTrace false false) ∧
    ¬ wellGuarded (getPropertyTrace true false) := by
  refine ⟨?_, ?_, ?_⟩
  · rintro ⟨inner, heq, -⟩
    simp [disposeValueTrace] at heq
  · rintro ⟨inner, heq, -⟩
    simp [evaluateTrace, guardWrapTryCatch] at heq
  · rintro ⟨inner, heq, -⟩
    simp [getPropertyTrace, guardWrapTryCatch] at heq

/-- Claim C1 (amended): createTemplate, createContext, valueToInt,
getUtf8StringLength, copyUtf8String, the six type predicates and
createFunction each acquire the isolate lock, the isolate scope and a
handle scope in that order, keep them for all engine-native calls, and
release them in strict reverse order on every exit path; evaluate and
getProperty follow the same discipline for every engine-native call
except their TryCatch, whose construction sits between the lock and the
isolate scope and whose destruction sits between the isolate-scope exit
and the unlock — under the lock but outside both scopes; the dispose
operations on values, templates and contexts instead release the
persistent handle without acquiring the lock or entering any scope. -/
theorem c1_scoped_guard_discipline :
    wellGuarded createTemplateTrace ∧
    wellGuarded createContextTrace ∧
    (∀ failed ptrNull : Bool,
      wellGuardedExceptTryCatch (evaluateTrace failed ptrNull)) ∧
    wellGuarded valueToIntTrace ∧
    wellGuarded getUtf8StringLengthTrace ∧
    wellGuarded copyUtf8StringTrace ∧
    wellGuarded isNullTrace ∧
    wellGuarded isUndefinedTrace ∧
    wellGuarded isBooleanTrace ∧
    wellGuarded isNumberTrace ∧
    wellGuarded isStringTrace ∧
    wellGuarded isObjectTrace ∧
    wellGuarded createFunctionTrace ∧
    (∀ found ptrNull : Bool,
      wellGuardedExceptTryCatch (getPropertyTrace found ptrNull)) ∧
    disposeValueTrace.all (fun e => !isGuardEvent e) = true ∧
    disposeTemplateTrace.all (fun e => !isGuardEvent e) = true ∧
    disposeContextTrace.all (fun e => !isGuardEvent e) = true := by
  refine ⟨wellGuarded_guardWrap _ (by decide), wellGuarded_guardWrap _ (by decide),
    ?_, wellGuarded_guardWrap _ (by decide), wellGuarded_guardWrap _ (by decide),
    wellGuarded_guardWrap _ (by decide), wellGuarded_guardWrap _ (by decide),
    wellGuarded_guardWrap _ (by decide), wellGuarded_guardWrap _ (by decide),
    wellGuarded_guardWrap _ (by decide), wellGuarded_guardWrap _ (by decide),
    wellGuarded_guardWrap _ (by decide), wellGuarded_guardWrap _ (by decide),
    ?_, by decide, by decide, by decide⟩
  · intro failed ptrNull
    cases failed <;> cases ptrNull <;>
      exact wellGuardedExceptTryCatch_guardWrapTryCatch _ (by decide)
  · intro found ptrNull
    cases found <;> cases ptrNull <;>
      exact wellGuardedExceptTryCatch_guardWrapTryCatch _ (by decide)

/-- Claim C2, counterexample: an evaluate call whose script run fails,
and a getProperty call whose lookup comes back empty, each made with a
null exception out-pointer, yield a null success value together with no
exception output — the combination the claim declares impossible for
every call. -/
theorem c2_counterexample :
    evaluate (RunOutcome.failure (V8Value.stringValue [83])) true =
      { result := none, excWrite := none } ∧
    getProperty none (some (V8Value.stringValue [83])) true =
      { result := none, excWrite := none } :=
  ⟨rfl, rfl⟩

/-- Claim C2 (amended): for every evaluate or getProperty call whose
exception out-pointer is non-null, exactly one of the two outputs is
produced — either a non-null success handle with nothing written to the
exception slot, or a null success value with a non-null exception
handle written; and for every failing call with a null out-pointer,
both functions return a null success value and produce no exception
output. -/
theorem c2_exactly_one_output :
    ∀ (outcome : RunOutcome) (lookupResult caught : Option V8Value)
      (exc : V8Value),
      (((evaluate outcome false).result.isSome = true ∧
          (evaluate outcome false).excWrite = none) ∨
        ((evaluate outcome false).result = none ∧
          (evaluate outcome false).excWrite.isSome = true)) ∧
      (((getProperty lookupResult caught false).result.isSome = true ∧
          (getProperty lookupResult caught false).excWrite = none) ∨
        ((getProperty lookupResult caught false).result = none ∧
          (getProperty lookupResult caught false).excWrite.isSome = true)) ∧
      evaluate (RunOutcome.failure exc) true =
        { result := none, excWrite := none } ∧
      getProperty none caught true =
        { result := none, excWrite := none } := by
  intro outcome lookupResult caught exc
  refine ⟨?_, ?_, rfl, rfl⟩
  · cases outcome with
    | success v => exact Or.inl ⟨rfl, rfl⟩
    | failure e => exact Or.inr ⟨rfl, rfl⟩
  · cases lookupResult with
    | some v => exact Or.inl ⟨rfl, rfl⟩
    | none => exact Or.inr ⟨rfl, rfl⟩

/-- Claim C3: for every source text the engine fails to compile (or
run), evaluate with a non-null exception out-pointer returns a null
success value and writes a non-null exception handle wrapping the
exception captured by the try-catch facility; no partial result is
returned. -/
theorem c3_invalid_source (engine : String → RunOutcome) (source : String)
    (exc : V8Value) (hfail : engine source = RunOutcome.failure exc) :
    evaluateScript engine source false =
      { result := none, excWrite := some ⟨some exc⟩ } := by
  simp [evaluateScript, hfail, evaluate]

/-- Witness for C3 at a concrete engine that rejects the source
text "1 +" with a syntax-error value. -/
theorem c3_witness :
    evaluateScript
      (fun s =>
        if s = "1 +" then
          RunOutcome.failure (V8Value.stringValue [83, 121, 110])
        else RunOutcome.success V8Value.undefinedValue)
      "1 +" false =
      { result := none,
        excWrite := some ⟨some (V8Value.stringValue [83, 121, 110])⟩ } :=
  c3_invalid_source _ _ _ (by simp)

/-- Claim C4: getProperty with a non-null exception out-pointer on an
object, for a key never set on it (neither a plain property nor a
throwing accessor), writes no exception and returns a handle whose
isUndefined is true; for a key whose accessor throws, it returns a null
result and writes a non-null exception handle. -/
theorem c4_property_missing_and_throwing :
    ∀ (o : EngineObject) (key : String),
      (lookupKey o.throwing key = none → lookupKey o.props key = none →
        (getPropertyOn o key false).excWrite = none ∧
        (getPropertyOn o key false).result.map isUndefined = some true) ∧
      (∀ exc : V8Value, lookupKey o.throwing key = some exc →
        (getPropertyOn o key false).result = none ∧
        (getPropertyOn o key false).excWrite = some ⟨some exc⟩) := by
  intro o key
  constructor
  · intro ht hp
    simp [getPropertyOn, getRealNamedProperty, ht, hp, getProperty, isUndefined]
  · intro exc ht
    simp [getPropertyOn, getRealNamedProperty, ht, getProperty]

/-- Witness for C4 on a concrete object with one plain property and one
throwing accessor, probed at a missing key and at the throwing key. -/
theorem c4_witness :
    ((getPropertyOn ⟨[("a", V8Value.numberValue 1)],
        [("boom", V8Value.stringValue [66])]⟩ "missing" false).excWrite =
          none ∧
      (getPropertyOn ⟨[("a", V8Value.numberValue 1)],
        [("boom", V8Value.stringValue [66])]⟩ "missing" false).result.map
          isUndefined = some true) ∧
    ((getPropertyOn ⟨[("a", V8Value.numberValue 1)],
        [("boom", V8Value.stringValue [66])]⟩ "boom" false).result = none ∧
      (getPropertyOn ⟨[("a", V8Value.numberValue 1)],
        [("boom", V8Value.stringValue [66])]⟩ "boom" false).excWrite =
          some ⟨some (V8Value.stringValue [66])⟩) :=
  ⟨(c4_property_missing_and_throwing
      ⟨[("a", V8Value.numberValue 1)], [("boom", V8Value.stringValue [66])]⟩
      "missing").1 (by decide) (by decide),
   (c4_property_missing_and_throwing
      ⟨[("a", V8Value.numberValue 1)], [("boom", V8Value.stringValue [66])]⟩
      "boom").2 (V8Value.stringValue [66]) (by decide)⟩

/-- Claim C5: when script code calls a function registered under callId
K with n arguments, the external dispatch function is invoked exactly
once, with the isolate, callId K, exactly n persistent handles wrapping
the arguments in order (empty for n = 0), the count n, and the call's
return value sink; the bridge disposes none of the handles and passes
the dispatch outcome through untransformed. -/
theorem c5_dispatch_marshalling :
    ∀ (ctx : ContextState) (isolate : Nat) (name : String)
      (args : List V8Value) (K : Int)
      (dispatch : Nat → Int → List ValueHandle → Nat → Option V8Value →
        Option V8Value),
      lookupKey ctx.boundSlots name = some K →
      scriptCall ctx isolate name args dispatch =
        some (CallbackEffect.mk
          [DispatchRecord.mk isolate K
            (args.map (fun a => ValueHandle.mk (some a))) args.length]
          []
          (dispatch isolate K (args.map (fun a => ValueHandle.mk (some a)))
            args.length none)) := by
  intro ctx isolate name args K dispatch hk
  simp [scriptCall, hk, callback]

/-- Witness for C5: a two-argument script call of a function registered
under callId 7 with arguments 1 and the string "x", dispatched to a
function that leaves the sink unset. -/
theorem c5_witness :
    scriptCall (ContextState.mk [("f", 7)] 0 []) 4 "f"
      [V8Value.numberValue 1, V8Value.stringValue [120]]
      (fun _ _ _ _ s => s) =
      some (CallbackEffect.mk
        [DispatchRecord.mk 4 7
          [ValueHandle.mk (some (V8Value.numberValue 1)),
           ValueHandle.mk (some (V8Value.stringValue [120]))] 2]
        [] none) := by
  have H := c5_dispatch_marshalling (ContextState.mk [("f", 7)] 0 []) 4 "f"
    [V8Value.numberValue 1, V8Value.stringValue [120]] 7
    (fun _ _ _ _ s => s) rfl
  exact H

/-- Claim C6: createFunction installs the named slot in the template,
then repoints the caller's context handle, in place, at a new context
bound to the updated template that reuses the old context's global
object identity and carries its global properties forward; no other
handle of the store changes, and every function previously registered
under another name keeps its slot. -/
theorem c6_register_rebinds_context :
    ∀ (tmpl : TemplateState) (store : List ContextState) (h : Nat)
      (name : String) (id : Int) (ctx : ContextState),
      storeGet store h = some ctx →
      lookupKey (createFunctionAt tmpl store h name id).1.slots name =
        some id ∧
      storeGet (createFunctionAt tmpl store h name id).2 h =
        some (ContextState.mk (createFunctionAt tmpl store h name id).1.slots
          ctx.globalId ctx.globalProps) ∧
      (createFunctionAt tmpl store h name id).2.length = store.length ∧
      (∀ j, j ≠ h → storeGet (createFunctionAt tmpl store h name id).2 j =
        storeGet store j) ∧
      (∀ n i, n ≠ name → lookupKey tmpl.slots n = some i →
        lookupKey (createFunctionAt tmpl store h name id).1.slots n =
          some i) := by
  intro tmpl store h name id ctx hget
  have hun : createFunctionAt tmpl store h name id =
      (TemplateState.mk (setSlot tmpl.slots name id),
       storeSet store h
         (contextNewWithGlobal (TemplateState.mk (setSlot tmpl.slots name id))
           ctx.globalId ctx.globalProps)) := by
    simp [createFunctionAt, hget, createFunction]
  rw [hun]
  refine ⟨lookupKey_setSlot_self _ _ _, ?_, length_storeSet store h _, ?_, ?_⟩
  · exact storeGet_storeSet_self store h _ ctx hget
  · intro j hj
    exact storeGet_storeSet_ne store h j _ hj
  · intro n i hnn hlk
    show lookupKey (setSlot tmpl.slots name id) n = some i
    rw [lookupKey_setSlot_other tmpl.slots name n id hnn]
    exact hlk

/-- Witness for C6: registering "f" under callId 7 on a store holding
one context (global object 5, one property, one prior function "g"). -/
theorem c6_witness :
    lookupKey (createFunctionAt (TemplateState.mk [("g", 3)])
      [ContextState.mk [("g", 3)] 5 [("p", V8Value.numberValue 9)]]
      0 "f" 7).1.slots "f" = some 7 ∧
    storeGet (createFunctionAt (TemplateState.mk [("g", 3)])
      [ContextState.mk [("g", 3)] 5 [("p", V8Value.numberValue 9)]]
      0 "f" 7).2 0 =
      some (ContextState.mk (createFunctionAt (TemplateState.mk [("g", 3)])
        [ContextState.mk [("g", 3)] 5 [("p", V8Value.numberValue 9)]]
        0 "f" 7).1.slots 5 [("p", V8Value.numberValue 9)]) ∧
    (createFunctionAt (TemplateState.mk [("g", 3)])
      [ContextState.mk [("g", 3)] 5 [("p", V8Value.numberValue 9)]]
      0 "f" 7).2.length = 1 ∧
    storeGet (createFunctionAt (TemplateState.mk [("g", 3)])
      [ContextState.mk [("g", 3)] 5 [("p", V8Value.numberValue 9)]]
      0 "f" 7).2 1 =
      storeGet [ContextState.mk [("g", 3)] 5 [("p", V8Value.numberValue 9)]]
        1 ∧
    lookupKey (createFunctionAt (TemplateState.mk [("g", 3)])
      [ContextState.mk [("g", 3)] 5 [("p", V8Value.numberValue 9)]]
      0 "f" 7).1.slots "g" = some 3 := by
  have H := c6_register_rebinds_context (TemplateState.mk [("g", 3)])
    [ContextState.mk [("g", 3)] 5 [("p", V8Value.numberValue 9)]]
    0 "f" 7 (ContextState.mk [("g", 3)] 5 [("p", V8Value.numberValue 9)]) rfl
  exact ⟨H.1, H.2.1, H.2.2.1, H.2.2.2.1 1 (by decide),
    H.2.2.2.2 "g" 3 (by decide) rfl⟩

/-- Claim C7: for every string value S evaluated to a handle, reading
its UTF-8 length and then copying with a caller buffer of exactly that
length reproduces the UTF-8 bytes of S byte-for-byte. -/
theorem c7_utf8_roundtrip (bytes buffer : List Nat)
    (hlen : buffer.length =
      getUtf8StringLength ⟨some (V8Value.stringValue bytes)⟩) :
    copyUtf8String ⟨some (V8Value.stringValue bytes)⟩ buffer
      (getUtf8StringLength ⟨some (V8Value.stringValue bytes)⟩) = bytes := by
  simp only [copyUtf8String, handleUtf8, utf8Bytes, memcpy,
    getUtf8StringLength] at hlen ⊢
  rw [List.take_length, ← hlen, List.drop_length, List.append_nil]

/-- Witness for C7 on the two-byte string "hi" and a buffer of exactly
its UTF-8 length. -/
theorem c7_witness :
    ([0, 0] : List Nat).length =
      getUtf8StringLength ⟨some (V8Value.stringValue [104, 105])⟩ ∧
    copyUtf8String ⟨some (V8Value.stringValue [104, 105])⟩ [0, 0]
      (getUtf8StringLength ⟨some (V8Value.stringValue [104, 105])⟩) =
      [104, 105] :=
  ⟨rfl, c7_utf8_roundtrip [104, 105] [0, 0] rfl⟩

/-- Claim C8: copyUtf8String writes exactly count bytes into the
destination (its first count bytes become the string's first count
UTF-8 bytes, a truncated copy when count is below the full length) and
never writes past count: the buffer keeps its length and every byte
from position count on, so no NUL terminator is appended. -/
theorem c8_copy_never_overruns (h : ValueHandle) (buffer : List Nat)
    (count : Nat) (hsrc : count ≤ (handleUtf8 h).length)
    (hdst : count ≤ buffer.length) :
    (copyUtf8String h buffer count).length = buffer.length ∧
    (copyUtf8String h buffer count).take count = (handleUtf8 h).take count ∧
    (copyUtf8String h buffer count).drop count = buffer.drop count := by
  have hl : ((handleUtf8 h).take count).length = count := by
    rw [List.length_take]
    exact Nat.min_eq_left hsrc
  refine ⟨?_, ?_, ?_⟩
  · simp only [copyUtf8String, memcpy]
    rw [List.length_append, hl, List.length_drop]
    exact Nat.add_sub_cancel' hdst
  · simp only [copyUtf8String, memcpy]
    exact List.take_left' hl
  · simp only [copyUtf8String, memcpy]
    exact List.drop_left' hl

/-- Witness for C8: a truncated two-byte copy of a three-byte string
into a four-byte buffer, leaving bytes two and three untouched. -/
theorem c8_witness :
    2 ≤ (handleUtf8 ⟨some (V8Value.stringValue [1, 2, 3])⟩).length ∧
    2 ≤ ([7, 7, 7, 7] : List Nat).length ∧
    (copyUtf8String ⟨some (V8Value.stringValue [1, 2, 3])⟩ [7, 7, 7, 7]
      2).length = ([7, 7, 7, 7] : List Nat).length ∧
    (copyUtf8String ⟨some (V8Value.stringValue [1, 2, 3])⟩ [7, 7, 7, 7]
      2).take 2 = (handleUtf8 ⟨some (V8Value.stringValue [1, 2, 3])⟩).take 2 ∧
    (copyUtf8String ⟨some (V8Value.stringValue [1, 2, 3])⟩ [7, 7, 7, 7]
      2).drop 2 = ([7, 7, 7, 7] : List Nat).drop 2 := by
  have H := c8_copy_never_overruns ⟨some (V8Value.stringValue [1, 2, 3])⟩
    [7, 7, 7, 7] 2 (by decide) (by decide)
  exact ⟨by decide, by decide, H.1, H.2.1, H.2.2⟩

/-- Claim C9: for every requested length, Allocate returns either NULL
or a block whose first length bytes are all zero, and
AllocateUninitialized delegates directly to the system allocator. -/
theorem c9_allocator_zeroing :
    ∀ (malloc : Nat → Option (List Nat)) (length : Nat),
      AllocateUninitialized malloc length = malloc length ∧
      (Allocate malloc length = none ∨
        ∃ block, Allocate malloc length = some block ∧
          (block.take length).all (fun b => b == 0) = true) := by
  intro malloc length
  refine ⟨rfl, ?_⟩
  cases hm : malloc length with
  | none =>
      left
      simp [Allocate, AllocateUninitialized, hm]
  | some data =>
      right
      refine ⟨memset data 0 length,
        by simp [Allocate, AllocateUninitialized, hm], ?_⟩
      have ht : (memset data 0 length).take length =
          List.replicate length 0 := by
        simp only [memset]
        exact List.take_left' (List.length_replicate length 0)
      rw [ht]
      simp [List.all_eq_true, List.mem_replicate]

/-- Claim C10: evaluate and getProperty write to the exception
out-parameter only on failure with a non-null out-pointer; on success
nothing is written and the slot's prior contents survive, and on
failure with a null out-pointer they return a null result without
writing anywhere. -/
theorem c10_exception_write_frame :
    ∀ (v exc lv : V8Value) (b : Bool) (caught : Option V8Value)
      (prior : Option ValueHandle),
      (evaluate (RunOutcome.success v) b).excWrite = none ∧
      slotAfter (evaluate (RunOutcome.success v) b) prior = prior ∧
      evaluate (RunOutcome.failure exc) true =
        { result := none, excWrite := none } ∧
      (evaluate (RunOutcome.failure exc) false).excWrite =
        some ⟨some exc⟩ ∧
      (getProperty (some lv) caught b).excWrite = none ∧
      slotAfter (getProperty (some lv) caught b) prior = prior ∧
      getProperty none caught true = { result := none, excWrite := none } ∧
      (getProperty none caught false).excWrite = some ⟨caught⟩ := by
  intro v exc lv b caught prior
  exact ⟨rfl, rfl, rfl, rfl, rfl, rfl, rfl, rfl⟩

end CV8
